import Mathlib

/-!
A shallow embedding of the `os-find` utility (src/main.cpp): a recursive
file-search tool with optional inode / name / size / hard-link predicates and
an optional `-exec` dispatcher.  Pure data stands in for the filesystem: each
directory node carries the result its `opendir` / `stat` / `closedir` calls
would produce, and the walker / matcher / dispatcher are translated
line-by-line from the source.  Diagnostic output and process events are
reified as an event trace.
-/

set_option autoImplicit false

namespace OsFind

/-- Result type of the C `readdir` call, restricted to the fields the program
reads: `d_ino`, `d_type` and `d_name` (src/main.cpp lines 128-131, 213-221). -/
structure dirent where
  d_ino : Nat
  d_type : Nat
  d_name : String
  deriving DecidableEq, Repr

/-- The `DT_DIR` constant from `<dirent.h>` (value 4 on Linux), the only
`d_type` value the program compares against (line 215). -/
def DT_DIR : Nat := 4

/-- Result of a successful `stat` call, restricted to the fields the program
reads: `st_size` (a signed `off_t`) and `st_nlink` (lines 144-159). -/
structure file_stat where
  st_size : Int
  st_nlink : Nat
  deriving DecidableEq, Repr

/-- The `size_type` enumeration of the configuration class (line 59). -/
inductive size_type : Type where
  | EQUAL
  | GREATER
  | LESS
  deriving DecidableEq, Repr

/-- The hand-rolled `optional<T>` of lines 32-48.  The C++ class couples a raw
`value` with an `is_set` flag; `set` is the only writer, so `value` holds
meaningful data exactly when `is_set` is true.  We fuse the two fields into a
single `Option`, and `get`, which asserts `is_set == true`, returns `none`
exactly when the assertion would fire. -/
structure optional (α : Type) where
  val : Option α := none
  deriving DecidableEq, Repr

/-- Line 37: `get` returns the stored value; `none` models the failed
`assert(is_set == true)`. -/
def optional.get {α : Type} (o : optional α) : Option α :=
  o.val

/-- Line 41: `set` stores a value and raises the flag. -/
def optional.set {α : Type} (_o : optional α) (new_val : α) : optional α :=
  { val := some new_val }

/-- Line 45: `empty` is the negation of the flag. -/
def optional.empty {α : Type} (o : optional α) : Bool :=
  o.val.isNone

/-- Whitespace in the default C locale, as skipped by `strtoull` inside
`std::stoull`. -/
def is_space (c : Char) : Bool :=
  c == ' ' || c == '\t' || c == '\n' || c == '\x0b' || c == '\x0c' || c == '\r'

/-- Numeric value of a decimal digit character. -/
def digit_val (c : Char) : Nat :=
  c.toNat - 48

/-- The `std::stoull(value)` call of line 52, base 10: skip leading
whitespace, accept one optional `+` or `-` sign, then require at least one
decimal digit; further characters after the digits are ignored.  With no
digits the C++ call throws `std::invalid_argument`; when the digit string
exceeds `ULLONG_MAX` it throws `std::out_of_range`; a `-` sign negates the
value in `unsigned long long` arithmetic, i.e. modulo `2 ^ 64`. -/
def stoull (s : List Char) : Except String Nat :=
  let s1 := s.dropWhile is_space
  let signed : Bool × List Char :=
    match s1 with
    | '-' :: r => (true, r)
    | '+' :: r => (false, r)
    | _ => (false, s1)
  let ds := signed.2.takeWhile Char.isDigit
  if ds.isEmpty then
    Except.error ("stoull")
  else
    let m := ds.foldl (fun a c => a * 10 + digit_val c) 0
    if 2 ^ 64 ≤ m then
      Except.error ("stoull out of range")
    else
      Except.ok (if signed.1 then (2 ^ 64 - m) % 2 ^ 64 else m)

/-- Lines 50-56: `parse_num` wraps `std::stoull`, rethrowing any parse
failure as an `invalid_argument` whose message names the option and the
offending value. -/
def parse_num (value : String) (option : String) : Except String Nat :=
  match stoull value.data with
  | Except.ok n => Except.ok n
  | Except.error e =>
      Except.error ("Value of " ++ option ++ " is invalid: " ++ value ++ ", " ++ e)

/-- Conversion of the `uint64_t` returned by `parse_num` into the signed
64-bit `off_t` stored in the size pair (line 63, line 88): two's-complement
reinterpretation. -/
def to_off_t (n : Nat) : Int :=
  if n < 2 ^ 63 then (n : Int) else (n : Int) - 2 ^ 64

/-- Indexing into a C string: positions past the end read the terminating
NUL byte. -/
def char_at (s : List Char) (i : Nat) : Char :=
  s.getD i '\x00'

/-- Lines 67-89, `configuration::get_size`.  The local `size_type type;` is
declared without an initializer and is never assigned on the bare-digits path
nor in the `case '='` branch; the `garbage` parameter models the
indeterminate value it holds there. -/
def get_size (garbage : size_type) (value : String) : Except String (Int × size_type) :=
  let v := value.data
  let prefix_step : Except String (Nat × size_type) :=
    if !(char_at v 0).isDigit then
      match char_at v 0 with
      | '+' => Except.ok (1, size_type.GREATER)
      | '-' => Except.ok (1, size_type.LESS)
      | '=' => Except.ok (1, garbage)
      | c => Except.error ("Value of size is invalid: Unknown symbol " ++ c.toString)
    else
      Except.ok (0, garbage)
  match prefix_step with
  | Except.error e => Except.error e
  | Except.ok (pos, type) =>
      let rest := v.drop pos
      if rest.length == 0 || char_at rest 0 == '-' then
        Except.error ("Value of size is invalid:" ++ value)
      else
        match parse_num (String.mk rest) ("-size") with
        | Except.error e => Except.error e
        | Except.ok n => Except.ok (to_off_t n, type)

/-- Lines 58-66: the fields of the `configuration` class.  `name` and
`executable` are raw `char*` pointers that are null until assigned, modelled
as `Option String`. -/
structure configuration where
  help : Bool := false
  inode : optional Nat := {}
  name : Option String := none
  size : optional (Int × size_type) := {}
  nlinks : optional Nat := {}
  executable : Option String := none
  deriving DecidableEq, Repr

/-- Lines 127-163, `configuration::matches`.  The `stat` system call on
line 135 is modelled by the `st` argument: `none` means the call returned
`-1` (the function then logs and returns false), `some s` is the filled
buffer.  The result lives in `Option Bool` because every read of an
`optional` field goes through `optional.get`: a `none` result would mean the
`assert` inside `get` fired. -/
def configuration.matches (cfg : configuration) (file : dirent) (st : Option file_stat) :
    Option Bool := do
  if !cfg.inode.empty then
    if (← cfg.inode.get) != file.d_ino then
      return false
  match cfg.name with
  | some nm => if file.d_name != nm then return false
  | none => pure ()
  match st with
  | none => return false
  | some s =>
    if !cfg.size.empty then
      let sz ← cfg.size.get
      match sz.2 with
      | size_type.EQUAL => if s.st_size != sz.1 then return false
      | size_type.LESS => if s.st_size ≥ sz.1 then return false
      | size_type.GREATER => if s.st_size ≤ sz.1 then return false
    if !cfg.nlinks.empty then
      if s.st_nlink != (← cfg.nlinks.get) then return false
    return true

/-- Control-flow companion of `configuration.matches`: the `stat` call on
line 135 is reached exactly when neither the inode check (line 128) nor the
name check (line 131) has already returned false. -/
def configuration.stat_invoked (cfg : configuration) (file : dirent) : Bool :=
  (cfg.inode.empty || cfg.inode.get == some file.d_ino) &&
  (match cfg.name with
   | some nm => file.d_name == nm
   | none => true)

/-- Lines 97-120: the option-scanning loop of the constructor, acting on the
argument suffix `argv[2..]`.  One step consumes a `-option value` pair; a
trailing option with no value is an error unless it is `-help`, which
short-circuits the scan. -/
def parse_opts (garbage : size_type) : List String → configuration → Except String configuration
  | [], cfg => Except.ok cfg
  | [option], cfg =>
      if option == "-help" then
        Except.ok { cfg with help := true }
      else
        Except.error ("Value of " ++ option ++ " wasn\x27t found")
  | option :: value :: rest, cfg =>
      if option == "-help" then
        Except.ok { cfg with help := true }
      else if option == "-inum" then
        match parse_num value option with
        | Except.error e => Except.error e
        | Except.ok n => parse_opts garbage rest { cfg with inode := cfg.inode.set n }
      else if option == "-name" then
        parse_opts garbage rest { cfg with name := some value }
      else if option == "-size" then
        match get_size garbage value with
        | Except.error e => Except.error e
        | Except.ok s => parse_opts garbage rest { cfg with size := cfg.size.set s }
      else if option == "-nlinks" then
        match parse_num value option with
        | Except.error e => Except.error e
        | Except.ok n => parse_opts garbage rest { cfg with nlinks := cfg.nlinks.set n }
      else if option == "-exec" then
        parse_opts garbage rest { cfg with executable := some value }
      else
        Except.error ("Unknown option " ++ option)

/-- Lines 92-121, the `configuration` constructor: `argv[1]` equal to
`-help` short-circuits everything; otherwise the loop scans the pairs
starting at index 2. -/
def configuration.build (garbage : size_type) (argv : List String) : Except String configuration :=
  if argv.getD 1 ("") == "-help" then
    Except.ok { help := true }
  else
    parse_opts garbage (argv.drop 2) {}

/-- Observable outcome of `main` (lines 234-249) up to the point where the
walk would start. -/
inductive main_result : Type where
  /-- Case `argc < 2`: usage text printed, `EXIT_FAILURE` returned. -/
  | help_failure
  /-- Configuration built with `help` set: usage text, `EXIT_SUCCESS`. -/
  | help_success
  /-- Valid non-help configuration: `recursive_walk(argv[1])` runs. -/
  | run (cfg : configuration)
  /-- Exception `std::invalid_argument` caught: message printed,
  `EXIT_FAILURE`, no traversal. -/
  | config_error (msg : String)
  deriving DecidableEq, Repr

/-- Lines 234-249, `main`: the argument-count guard, the constructor with
its exception handler, and the `is_help` dispatch. -/
def run_main (garbage : size_type) (argv : List String) : main_result :=
  if argv.length < 2 then
    main_result.help_failure
  else
    match configuration.build garbage argv with
    | Except.error e => main_result.config_error e
    | Except.ok cfg =>
        if cfg.help then main_result.help_success else main_result.run cfg

/-- Diagnostic lines written to `std::cerr`, one constructor per distinct
format string in the source; each carries exactly the data the source
interpolates (note that the fork and wait messages carry no path). -/
inductive diag : Type where
  /-- Line 210: `"Cannot open " << path << ": " << strerror(errno)`. -/
  | cannot_open (path : String) (etext : String)
  /-- Line 136: `"Cannot check file " << path << ": " << strerror(errno)`. -/
  | cannot_check (path : String) (etext : String)
  /-- Line 227: `"Cannot close " << path << ": " << strerror(errno)`. -/
  | cannot_close (path : String) (etext : String)
  /-- Line 180: `"Cannot fork: " << strerror(errno)`. -/
  | cannot_fork (etext : String)
  /-- Lines 171-173, `show_error`:
  `"The following error occurred: " << strerror(errno)`. -/
  | error_occurred (etext : String)
  deriving DecidableEq, Repr

/-- The text each diagnostic renders to, following the source format
strings verbatim. -/
def diag.text : diag → String
  | diag.cannot_open path etext => "Cannot open " ++ path ++ ": " ++ etext
  | diag.cannot_check path etext => "Cannot check file " ++ path ++ ": " ++ etext
  | diag.cannot_close path etext => "Cannot close " ++ path ++ ": " ++ etext
  | diag.cannot_fork etext => "Cannot fork: " ++ etext
  | diag.error_occurred etext => "The following error occurred: " ++ etext

/-- Externally observable events of one run: a path printed to `std::cout`,
a diagnostic on `std::cerr`, a child created by `fork` that will replace its
image with `execve(argv[0], argv, envp)`, and a completed `waitpid`. -/
inductive event : Type where
  | out (path : String)
  | err (d : diag)
  | exec_child (exe : String) (argv : List String)
  | waited
  deriving DecidableEq, Repr

/-- Outcomes of the fallible system calls `process` and the walker make,
plus the text `strerror(errno)` yields when one fails. -/
structure sys_oracle where
  fork_ok : Bool := true
  wait_ok : Bool := true
  etext : String := "E"
  deriving DecidableEq, Repr

/-- Lines 175-199, `process`: with no executable configured the matched path
is printed; otherwise `fork` either fails (logged, dispatch abandoned) or
creates one child whose `execve` argument vector is
`{executable, name, nullptr}` — the two tokens `executable` and `name` —
after which the parent calls `waitpid` once, logging a failure of the wait
through `show_error`. -/
def process (cfg : configuration) (name : String) (o : sys_oracle) : List event :=
  match cfg.executable with
  | some exe =>
      if o.fork_ok then
        event.exec_child exe [exe, name] ::
          (if o.wait_ok then [event.waited] else [event.err (diag.error_occurred o.etext)])
      else
        [event.err (diag.cannot_fork o.etext)]
  | none => [event.out name]

mutual
/-- A filesystem object as the walker observes it: `open_result` is what
`opendir` on its path yields (`none` = failure), `stat_result` what `stat`
yields, and `close_ok` whether `closedir` succeeds. -/
inductive fs_node : Type where
  | mk (open_result : Option fs_listing) (stat_result : Option file_stat) (close_ok : Bool) :
      fs_node

/-- The stream of entries `readdir` yields for one directory, each paired
with the node its `full_path` designates. -/
inductive fs_listing : Type where
  | nil : fs_listing
  | cons (e : dirent) (child : fs_node) (rest : fs_listing) : fs_listing
end

/-- The `stat_result` component of a node. -/
def fs_node.stat_result : fs_node → Option file_stat
  | fs_node.mk _ st _ => st

mutual
/-- Lines 207-231, `walker::recursive_walk`: a failed `opendir` logs and
returns; otherwise the entry loop runs and a failed `closedir` logs. -/
def recursive_walk (cfg : configuration) (o : sys_oracle) (path : String) :
    fs_node → List event
  | fs_node.mk none _ _ => [event.err (diag.cannot_open path o.etext)]
  | fs_node.mk (some l) _ close_ok =>
      walk_listing cfg o path l ++
        (if close_ok then [] else [event.err (diag.cannot_close path o.etext)])

/-- The `while (auto entry = readdir(dir))` loop of lines 213-225: each
entry is handled by `walk_entry`, then the loop continues with the rest of
the listing. -/
def walk_listing (cfg : configuration) (o : sys_oracle) (path : String) :
    fs_listing → List event
  | fs_listing.nil => []
  | fs_listing.cons e child rest =>
      walk_entry cfg o path e child ++ walk_listing cfg o path rest

/-- Lines 214-224, the body of the entry loop: build
`full_path = path + "/" + d_name`; a `DT_DIR` entry is skipped when named
`.` or `..` and recursed into otherwise; any other entry goes through
`configuration.matches` (whose failed `stat` prints the line-136 diagnostic,
emitted here since `matches` is kept pure) and, on a match, `process`. -/
def walk_entry (cfg : configuration) (o : sys_oracle) (path : String)
    (e : dirent) (child : fs_node) : List event :=
  let full_path := path ++ "/" ++ e.d_name
  if e.d_type == DT_DIR then
    if e.d_name == "." || e.d_name == ".." then
      []
    else
      recursive_walk cfg o full_path child
  else
    (if cfg.stat_invoked e && child.stat_result.isNone then
      [event.err (diag.cannot_check full_path o.etext)]
    else
      []) ++
    (match cfg.matches e child.stat_result with
     | some true => process cfg full_path o
     | some false => []
     | none => [])
end

/-- Whether an `Except` computation raised (the C++ side threw
`std::invalid_argument` / `std::logic_error`). -/
def is_err {α : Type} (x : Except String α) : Bool :=
  match x with
  | Except.error _ => true
  | Except.ok _ => false

/-- Serialization of child processes in an event trace: every `fork`ed child
is joined (a `waitpid` completion, or the logged wait failure) before any
later event, so at most one child is ever alive. -/
def child_joined : List event → Bool
  | [] => true
  | event.exec_child _ _ :: event.waited :: r => child_joined r
  | event.exec_child _ _ :: event.err (diag.error_occurred _) :: r => child_joined r
  | event.exec_child _ _ :: _ => false
  | _ :: rest => child_joined rest

/-! Helper lemmas shared by the claim theorems. -/

theorem string_data_append (s t : String) : (s ++ t).data = s.data ++ t.data := rfl

/-- When the inode or name check already rejects an entry, `matches` returns
before the `stat` call, so its result cannot depend on the `stat` outcome. -/
theorem matches_indep_of_not_invoked (cfg : configuration) (e : dirent)
    (st st' : Option file_stat) (h : cfg.stat_invoked e = false) :
    cfg.matches e st = cfg.matches e st' := by
  rcases cfg with ⟨help, ⟨inode⟩, name, ⟨size⟩, ⟨nlinks⟩, exe⟩
  rcases inode with _ | i <;> rcases name with _ | nm <;>
    simp [configuration.matches, configuration.stat_invoked, optional.empty,
      optional.get] at * <;>
    repeat' (split <;> try simp_all)

/-- When control reaches the `stat` call and it fails, the entry is treated
as non-matching (line 137). -/
theorem matches_none_of_invoked (cfg : configuration) (e : dirent)
    (h : cfg.stat_invoked e = true) :
    cfg.matches e none = some false := by
  rcases cfg with ⟨help, ⟨inode⟩, name, ⟨size⟩, ⟨nlinks⟩, exe⟩
  rcases inode with _ | i <;> rcases name with _ | nm <;>
    simp [configuration.matches, configuration.stat_invoked, optional.empty,
      optional.get] at *

/-- The `opendir`-failure diagnostic contains the offending path. -/
theorem path_in_open_text (p et : String) :
    List.IsInfix p.data (diag.text (diag.cannot_open p et)).data :=
  ⟨("Cannot open ").data, (": " ++ et).data, by simp [diag.text, string_data_append]⟩

/-- The `stat`-failure diagnostic contains the offending path. -/
theorem path_in_check_text (p et : String) :
    List.IsInfix p.data (diag.text (diag.cannot_check p et)).data :=
  ⟨("Cannot check file ").data, (": " ++ et).data, by simp [diag.text, string_data_append]⟩

theorem child_joined_append (a b : List event) (ha : child_joined a = true)
    (hb : child_joined b = true) : child_joined (a ++ b) = true := by
  induction a using child_joined.induct <;> simp_all [child_joined]

/-- Every trace `process` produces joins its child before returning. -/
theorem child_joined_process (cfg : configuration) (name : String) (o : sys_oracle) :
    child_joined (process cfg name o) = true := by
  rcases cfg with ⟨_, _, _, _, _, exe⟩
  rcases exe with _ | e <;> rcases o with ⟨fk, wk, et⟩ <;> cases fk <;> cases wk <;>
    simp [process, child_joined]

mutual
/-- Every trace the walker produces keeps children serialized: each `fork`
is joined before any later event. -/
theorem child_joined_walk (cfg : configuration) (o : sys_oracle) :
    ∀ (path : String) (n : fs_node), child_joined (recursive_walk cfg o path n) = true
  | path, fs_node.mk none st cl => by simp [recursive_walk, child_joined]
  | path, fs_node.mk (some l) st cl => by
      simp only [recursive_walk]
      refine child_joined_append _ _ (child_joined_listing cfg o path l) ?_
      cases cl <;> simp [child_joined]

/-- Traces of the entry loop keep children serialized. -/
theorem child_joined_listing (cfg : configuration) (o : sys_oracle) :
    ∀ (path : String) (l : fs_listing), child_joined (walk_listing cfg o path l) = true
  | path, fs_listing.nil => by simp [walk_listing, child_joined]
  | path, fs_listing.cons e child rest => by
      simp only [walk_listing]
      refine child_joined_append _ _ ?_ (child_joined_listing cfg o path rest)
      unfold walk_entry
      split
      · split
        · simp [child_joined]
        · exact child_joined_walk cfg o _ child
      · refine child_joined_append _ _ ?_ ?_
        · split <;> simp [child_joined]
        · rcases hm : configuration.matches cfg e child.stat_result with _ | b
          · simp [child_joined]
          · cases b
            · simp [child_joined]
            · exact child_joined_process cfg _ o

end

/-! The claim theorems. -/

/-- C1 (code bug): the spec and the help text say a bare-digits `-size 100`
(and the `=` prefix) resolve to the EQUAL comparator, but `get_size` leaves
the local `type` uninitialized on exactly those paths.  With the
indeterminate value read as GREATER, `-size 100` is built into a GREATER
filter and a file of exactly 100 bytes fails to match; with it read as
EQUAL the same command line accepts that file.  A `+` prefix, by contrast,
assigns the comparator, so the result is independent of the garbage value
and strict-greater semantics hold. -/
theorem c1_uninitialized_size_comparator :
    configuration.build size_type.GREATER ["p", "r", "-size", "100"] =
      Except.ok { size := optional.set {} (100, size_type.GREATER) } ∧
    configuration.matches { size := optional.set {} (100, size_type.GREATER) }
      ⟨5, 8, "f"⟩ (some ⟨100, 7⟩) = some false ∧
    configuration.build size_type.EQUAL ["p", "r", "-size", "100"] =
      Except.ok { size := optional.set {} (100, size_type.EQUAL) } ∧
    configuration.matches { size := optional.set {} (100, size_type.EQUAL) }
      ⟨5, 8, "f"⟩ (some ⟨100, 7⟩) = some true ∧
    configuration.build size_type.LESS ["p", "r", "-size", "+100"] =
      Except.ok { size := optional.set {} (100, size_type.GREATER) } ∧
    configuration.matches { size := optional.set {} (100, size_type.GREATER) }
      ⟨5, 8, "f"⟩ (some ⟨101, 7⟩) = some true :=
  ⟨rfl, by decide, rfl, by decide, rfl, by decide⟩

/-- C2 (counterexample): with no predicate configured at all, the `stat`
lookup is still reached — and its failure flips the verdict to false — even
though neither a size nor an nlinks predicate is set, contradicting the
claimed "lookup performed iff size or nlinks configured". -/
theorem c2_stat_lookup_counterexample :
    configuration.stat_invoked {} ⟨1, 8, "f"⟩ = true ∧
    ({} : configuration).size.empty = true ∧
    ({} : configuration).nlinks.empty = true ∧
    configuration.matches {} ⟨1, 8, "f"⟩ none = some false := by
  decide

/-- C2 (amended): the status lookup is performed exactly when the inode and
name checks pass, regardless of whether size or nlinks predicates are
configured; when the lookup is not reached the verdict is independent of the
`stat` outcome, and when it is reached a failed lookup makes the entry
non-matching. -/
theorem c2_stat_lookup_amended (cfg : configuration) (e : dirent)
    (st st' : Option file_stat) :
    (cfg.stat_invoked e = false → cfg.matches e st = cfg.matches e st') ∧
    (cfg.stat_invoked e = true → cfg.matches e none = some false) :=
  ⟨matches_indep_of_not_invoked cfg e st st', matches_none_of_invoked cfg e⟩

theorem c2_stat_lookup_amended_witness :
    configuration.matches { name := some ("x") } ⟨1, 8, "f"⟩ none =
      configuration.matches { name := some ("x") } ⟨1, 8, "f"⟩ (some ⟨5, 1⟩) ∧
    configuration.matches {} ⟨1, 8, "f"⟩ none = some false :=
  ⟨(c2_stat_lookup_amended { name := some ("x") } ⟨1, 8, "f"⟩ none (some ⟨5, 1⟩)).1
      (by decide),
   (c2_stat_lookup_amended {} ⟨1, 8, "f"⟩ none none).2 (by decide)⟩

/-- C3 (counterexample): with no predicate configured, an entry whose
`stat` fails does not match, so not every reachable non-directory entry is
dispatched. -/
theorem c3_no_predicates_counterexample :
    ({} : configuration).inode.empty = true ∧ ({} : configuration).name = none ∧
    ({} : configuration).size.empty = true ∧ ({} : configuration).nlinks.empty = true ∧
    configuration.matches {} ⟨1, 8, "f"⟩ none = some false := by
  decide

/-- C3 (amended): with no predicate configured, every non-directory entry
whose status lookup succeeds matches, and the walker dispatches it exactly
once — a single `process` invocation, which prints the path when no
executable is configured and runs the configured program otherwise — before
continuing with the remaining entries. -/
theorem c3_no_predicates_amended (cfg : configuration) (o : sys_oracle) (path : String)
    (e : dirent) (child : fs_node) (rest : fs_listing) (s : file_stat)
    (h1 : cfg.inode.empty = true) (h2 : cfg.name = none) (h3 : cfg.size.empty = true)
    (h4 : cfg.nlinks.empty = true)
    (hd : e.d_type ≠ DT_DIR) (hst : child.stat_result = some s) :
    configuration.matches cfg e (some s) = some true ∧
    walk_listing cfg o path (fs_listing.cons e child rest) =
      process cfg (path ++ "/" ++ e.d_name) o ++ walk_listing cfg o path rest := by
  have hm : configuration.matches cfg e (some s) = some true := by
    rcases cfg with ⟨help, ⟨inode⟩, name, ⟨size⟩, ⟨nlinks⟩, exe⟩
    simp [optional.empty] at h1 h3 h4
    subst h2
    simp [configuration.matches, h1, h3, h4, optional.empty]
  refine ⟨hm, ?_⟩
  have hdt : (e.d_type == DT_DIR) = false := by
    simpa using hd
  simp [walk_listing, walk_entry, hdt, hst, hm]

theorem c3_no_predicates_amended_witness :
    configuration.matches {} ⟨1, 8, "f"⟩ (some ⟨10, 1⟩) = some true ∧
    walk_listing {} {} ("r")
        (fs_listing.cons ⟨1, 8, "f"⟩ (fs_node.mk none (some ⟨10, 1⟩) true) fs_listing.nil) =
      process {} ("r" ++ "/" ++ "f") {} ++ walk_listing {} {} ("r") fs_listing.nil ∧
    walk_listing { executable := some ("/bin/x") } {} ("r")
        (fs_listing.cons ⟨1, 8, "f"⟩ (fs_node.mk none (some ⟨10, 1⟩) true) fs_listing.nil) =
      process { executable := some ("/bin/x") } ("r" ++ "/" ++ "f") {} ++
        walk_listing { executable := some ("/bin/x") } {} ("r") fs_listing.nil :=
  ⟨(c3_no_predicates_amended {} {} ("r") ⟨1, 8, "f"⟩ (fs_node.mk none (some ⟨10, 1⟩) true)
      fs_listing.nil ⟨10, 1⟩ rfl rfl rfl rfl (by decide) rfl).1,
   (c3_no_predicates_amended {} {} ("r") ⟨1, 8, "f"⟩ (fs_node.mk none (some ⟨10, 1⟩) true)
      fs_listing.nil ⟨10, 1⟩ rfl rfl rfl rfl (by decide) rfl).2,
   (c3_no_predicates_amended { executable := some ("/bin/x") } {} ("r") ⟨1, 8, "f"⟩
      (fs_node.mk none (some ⟨10, 1⟩) true) fs_listing.nil ⟨10, 1⟩ rfl rfl rfl rfl
      (by decide) rfl).2⟩

/-- C4 (counterexample): a fork failure is reported without the offending
path — the diagnostic text `Cannot fork: E` does not contain the matched
path — so not every per-entry operational error is reported "with the
offending path". -/
theorem c4_error_containment_counterexample :
    process { executable := some ("/bin/x") } ("r/f")
        { fork_ok := false, wait_ok := true, etext := "E" } =
      [event.err (diag.cannot_fork ("E"))] ∧
    ¬ List.IsInfix ("r/f").data (diag.text (diag.cannot_fork ("E"))).data := by
  refine ⟨rfl, by decide⟩

/-- C4 (amended): every per-entry operational error is contained — a failed
`opendir` logs one path-bearing diagnostic and returns without recursing, a
failed `stat` makes the entry non-matching (its diagnostic also carries the
path), a failed fork skips the dispatch and a failed wait is merely logged
(both without the path in their message) — and the entry loop always
continues with the remaining entries. -/
theorem c4_error_containment_amended (cfg : configuration) (o : sys_oracle)
    (path name exe : String) (st : Option file_stat) (cl : Bool) (e : dirent)
    (child : fs_node) (rest : fs_listing) :
    recursive_walk cfg o path (fs_node.mk none st cl) =
      [event.err (diag.cannot_open path o.etext)] ∧
    List.IsInfix path.data (diag.text (diag.cannot_open path o.etext)).data ∧
    List.IsInfix path.data (diag.text (diag.cannot_check path o.etext)).data ∧
    (cfg.stat_invoked e = true → cfg.matches e none = some false) ∧
    (cfg.executable = some exe → o.fork_ok = false →
      process cfg name o = [event.err (diag.cannot_fork o.etext)]) ∧
    (cfg.executable = some exe → o.fork_ok = true → o.wait_ok = false →
      process cfg name o =
        [event.exec_child exe [exe, name], event.err (diag.error_occurred o.etext)]) ∧
    walk_listing cfg o path (fs_listing.cons e child rest) =
      walk_entry cfg o path e child ++ walk_listing cfg o path rest := by
  refine ⟨by simp [recursive_walk], path_in_open_text path o.etext,
    path_in_check_text path o.etext, matches_none_of_invoked cfg e, ?_, ?_,
    by simp [walk_listing]⟩
  · intro hexe hf
    simp [process, hexe, hf]
  · intro hexe hf hw
    simp [process, hexe, hf, hw]

theorem c4_error_containment_amended_witness :
    recursive_walk { executable := some ("/bin/x") }
        { fork_ok := false, wait_ok := true, etext := "E" } ("r")
        (fs_node.mk none none true) = [event.err (diag.cannot_open ("r") ("E"))] ∧
    configuration.matches { executable := some ("/bin/x") } ⟨1, 8, "f"⟩ none = some false ∧
    process { executable := some ("/bin/x") } ("r/f")
        { fork_ok := false, wait_ok := true, etext := "E" } =
      [event.err (diag.cannot_fork ("E"))] ∧
    process { executable := some ("/bin/x") } ("r/f")
        { fork_ok := true, wait_ok := false, etext := "E" } =
      [event.exec_child ("/bin/x") ["/bin/x", "r/f"],
       event.err (diag.error_occurred ("E"))] :=
  ⟨(c4_error_containment_amended { executable := some ("/bin/x") }
      { fork_ok := false, wait_ok := true, etext := "E" } ("r") ("r/f") ("/bin/x")
      none true ⟨1, 8, "f"⟩ (fs_node.mk none none true) fs_listing.nil).1,
   (c4_error_containment_amended { executable := some ("/bin/x") }
      { fork_ok := false, wait_ok := true, etext := "E" } ("r") ("r/f") ("/bin/x")
      none true ⟨1, 8, "f"⟩ (fs_node.mk none none true) fs_listing.nil).2.2.2.1 (by decide),
   (c4_error_containment_amended { executable := some ("/bin/x") }
      { fork_ok := false, wait_ok := true, etext := "E" } ("r") ("r/f") ("/bin/x")
      none true ⟨1, 8, "f"⟩ (fs_node.mk none none true) fs_listing.nil).2.2.2.2.1 rfl rfl,
   (c4_error_containment_amended { executable := some ("/bin/x") }
      { fork_ok := true, wait_ok := false, etext := "E" } ("r") ("r/f") ("/bin/x")
      none true ⟨1, 8, "f"⟩ (fs_node.mk none none true) fs_listing.nil).2.2.2.2.2.1
      rfl rfl rfl⟩

/-- C5: with an executable configured and a successful fork, the dispatcher
creates exactly one child whose argument vector is the two tokens
`[executable, matched_path]`, and the parent performs its wait (successful
or logged as failed) before returning; moreover every walker trace keeps
children serialized, so at most one child exists at a time. -/
theorem c5_exec_dispatch (cfg : configuration) (name exe : String) (o : sys_oracle)
    (hexe : cfg.executable = some exe) (hfork : o.fork_ok = true) :
    process cfg name o =
      event.exec_child exe [exe, name] ::
        (if o.wait_ok then [event.waited] else [event.err (diag.error_occurred o.etext)]) ∧
    ∀ (path : String) (n : fs_node),
      child_joined (recursive_walk cfg o path n) = true := by
  refine ⟨by simp [process, hexe, hfork], fun path n => child_joined_walk cfg o path n⟩

theorem c5_exec_dispatch_witness :
    process { executable := some ("/bin/x") } ("r/f") {} =
      [event.exec_child ("/bin/x") ["/bin/x", "r/f"], event.waited] ∧
    child_joined (recursive_walk { executable := some ("/bin/x") } {} ("r")
      (fs_node.mk none none true)) = true :=
  ⟨(c5_exec_dispatch { executable := some ("/bin/x") } ("r/f") ("/bin/x") {} rfl rfl).1,
   (c5_exec_dispatch { executable := some ("/bin/x") } ("r/f") ("/bin/x") {} rfl rfl).2
     ("r") (fs_node.mk none none true)⟩

/-- C6 (counterexample): `std::stoull` ignores trailing non-digit
characters, so the value `123abc` — not a well-formed unsigned integer — is
accepted as 123 and the run proceeds to traversal instead of failing with a
configuration error. -/
theorem c6_numeric_parse_counterexample :
    parse_num ("123abc") ("-inum") = Except.ok 123 ∧
    run_main size_type.EQUAL ["p", "r", "-inum", "123abc"] =
      main_result.run { inode := optional.set {} 123 } :=
  ⟨rfl, rfl⟩

/-- C6 (amended): numeric option values are parsed with `stoull` semantics —
trailing characters after the digits are ignored and a leading minus sign is
accepted with wraparound — and whenever that parse does fail, the error
message names the option and the value, and the run ends in a configuration
error before any traversal. -/
theorem c6_numeric_parse_amended (prog root v opt m e : String) (g : size_type)
    (rest : List String) :
    (stoull v.data = Except.error e →
      parse_num v opt =
        Except.error ("Value of " ++ opt ++ " is invalid: " ++ v ++ ", " ++ e)) ∧
    (root ≠ "-help" → parse_num v ("-inum") = Except.error m →
      run_main g (prog :: root :: "-inum" :: v :: rest) = main_result.config_error m) := by
  constructor
  · intro h
    simp [parse_num, h]
  · intro hr hp
    simp [run_main, configuration.build, List.getD, hr, parse_opts, hp]

theorem c6_numeric_parse_amended_witness :
    parse_num ("abc") ("-inum") =
      Except.error ("Value of " ++ "-inum" ++ " is invalid: " ++ "abc" ++ ", " ++ "stoull") ∧
    run_main size_type.EQUAL ["p", "r", "-inum", "abc"] =
      main_result.config_error ("Value of -inum is invalid: abc, stoull") :=
  ⟨(c6_numeric_parse_amended ("p") ("r") ("abc") ("-inum")
      ("Value of -inum is invalid: abc, stoull") ("stoull") size_type.EQUAL []).1 rfl,
   (c6_numeric_parse_amended ("p") ("r") ("abc") ("-inum")
      ("Value of -inum is invalid: abc, stoull") ("stoull") size_type.EQUAL []).2
      (by decide) rfl⟩

/-- C7 (counterexample): the value `12x` does not match the claimed grammar
(digits followed by nothing), yet `get_size` accepts it as 12 and the run
proceeds, so not every off-grammar value is rejected. -/
theorem c7_size_grammar_counterexample :
    get_size size_type.EQUAL ("12x") = Except.ok (12, size_type.EQUAL) ∧
    run_main size_type.EQUAL ["p", "r", "-size", "12x"] =
      main_result.run { size := optional.set {} (12, size_type.EQUAL) } :=
  ⟨rfl, rfl⟩

/-- C7 (amended): a `-size` value is rejected when its first character is
neither a digit nor one of `+`, `-`, `=` (covering `abc` and the empty
string, whose first read yields the NUL byte), and when the remainder after
a prefix character is empty or starts with `-` (covering `-`); a value whose
first character is a digit and which `stoull` accepts — trailing junk
included — is accepted, with the comparator left at the indeterminate
`garbage` value. -/
theorem c7_size_grammar_amended (g : size_type) (v : String) (n : Nat) :
    (¬ (char_at v.data 0).isDigit = true → char_at v.data 0 ≠ '+' →
      char_at v.data 0 ≠ '-' → char_at v.data 0 ≠ '=' → is_err (get_size g v) = true) ∧
    (is_err (get_size g ("")) = true) ∧
    (is_err (get_size g ("-")) = true) ∧
    ((char_at v.data 0 = '+' ∨ char_at v.data 0 = '-' ∨ char_at v.data 0 = '=') →
      (v.data.drop 1 = [] ∨ char_at (v.data.drop 1) 0 = '-') →
      is_err (get_size g v) = true) ∧
    ((char_at v.data 0).isDigit = true → stoull v.data = Except.ok n →
      get_size g v = Except.ok (to_off_t n, g)) := by
  refine ⟨?_, rfl, rfl, ?_, ?_⟩
  · intro h h1 h2 h3
    have hd : (char_at v.data 0).isDigit = false := by simpa using h
    simp only [get_size, hd, Bool.not_false, if_true]
    rfl
  · intro hp hrest
    have hd : (char_at v.data 0).isDigit = false := by
      rcases hp with hc | hc | hc <;> rw [hc] <;> decide
    rcases hp with hc | hc | hc
    all_goals
      simp only [get_size, hd, hc, Bool.not_false, if_true]
      rcases hrest with hr | hr
      · simp [hr, is_err]
      · simp only [List.drop_one] at hr
        simp [hr, is_err]
  · intro h hok
    have hne : v.data ≠ [] := by
      intro hnil
      rw [hnil] at h
      exact absurd h (by decide)
    have hdash : (char_at v.data 0 == '-') = false := by
      rcases hq : char_at v.data 0 == '-'
      · rfl
      · have hcc : char_at v.data 0 = '-' := beq_iff_eq.mp hq
        rw [hcc] at h
        exact absurd h (by decide)
    have hlen : (v.data.length == 0) = false := by
      rcases hq : v.data.length == 0
      · rfl
      · exact absurd (List.length_eq_zero.mp (beq_iff_eq.mp hq)) hne
    have hmk : String.mk v.data = v := rfl
    simp only [get_size, h, Bool.not_true, Bool.false_eq_true, if_false, List.drop_zero,
      hlen, hdash, Bool.or_self, parse_num, hmk, hok]

theorem c7_size_grammar_amended_witness :
    is_err (get_size size_type.EQUAL ("abc")) = true ∧
    is_err (get_size size_type.EQUAL ("")) = true ∧
    is_err (get_size size_type.EQUAL ("-")) = true ∧
    is_err (get_size size_type.EQUAL ("+")) = true ∧
    get_size size_type.EQUAL ("12x") = Except.ok (to_off_t 12, size_type.EQUAL) :=
  ⟨(c7_size_grammar_amended size_type.EQUAL ("abc") 0).1 (by decide) (by decide)
      (by decide) (by decide),
   (c7_size_grammar_amended size_type.EQUAL ("abc") 0).2.1,
   (c7_size_grammar_amended size_type.EQUAL ("abc") 0).2.2.1,
   (c7_size_grammar_amended size_type.EQUAL ("+") 0).2.2.2.1 (Or.inl rfl) (Or.inl rfl),
   (c7_size_grammar_amended size_type.EQUAL ("12x") 12).2.2.2.2 (by decide) rfl⟩

/-- C8 (counterexample): `-help` sits at an option position (index 4), yet
the run fails with `Unknown option -badopt` instead of printing usage and
exiting successfully, because scanning aborts on the earlier bad option —
so `-help` at an option position does not win "regardless of the other
arguments". -/
theorem c8_help_counterexample :
    run_main size_type.EQUAL ["p", "r", "-badopt", "x", "-help"] =
      main_result.config_error ("Unknown option -badopt") := by
  decide

/-- C8 (amended): `-help` as `argv[1]` short-circuits to a successful help
exit regardless of every other argument; at a later option position it
short-circuits only once scanning reaches it, i.e. when all earlier option
pairs were consumed without error; and with no arguments beyond the program
name the usage text path exits with failure. -/
theorem c8_help_amended (g : size_type) (argv : List String) (rest : List String)
    (cfg : configuration) (prog : String) :
    (2 ≤ argv.length → argv.getD 1 ("") = "-help" →
      run_main g argv = main_result.help_success) ∧
    (parse_opts g ("-help" :: rest) cfg = Except.ok { cfg with help := true }) ∧
    (2 ≤ argv.length → configuration.build g argv = Except.ok cfg → cfg.help = true →
      run_main g argv = main_result.help_success) ∧
    run_main g [prog] = main_result.help_failure := by
  refine ⟨?_, ?_, ?_, ?_⟩
  · intro hlen hh
    rcases argv with _ | ⟨a, argv2⟩
    · simp at hlen
    rcases argv2 with _ | ⟨b, t⟩
    · simp at hlen
    simp [List.getD] at hh
    subst hh
    simp [run_main, configuration.build, List.getD]
  · cases rest <;> simp [parse_opts]
  · intro hlen hb hh
    have h2 : ¬ argv.length < 2 := by omega
    simp [run_main, h2, hb, hh]
  · simp [run_main]

theorem c8_help_amended_witness :
    run_main size_type.EQUAL ["p", "-help", "zzz"] = main_result.help_success ∧
    parse_opts size_type.EQUAL ["-help", "zzz"] {} =
      Except.ok { ({} : configuration) with help := true } ∧
    run_main size_type.EQUAL ["p", "r", "-help"] = main_result.help_success ∧
    run_main size_type.EQUAL ["p"] = main_result.help_failure :=
  ⟨(c8_help_amended size_type.EQUAL ["p", "-help", "zzz"] ["zzz"] {} ("p")).1
      (by decide) rfl,
   (c8_help_amended size_type.EQUAL ["p", "-help", "zzz"] ["zzz"] {} ("p")).2.1,
   (c8_help_amended size_type.EQUAL ["p", "r", "-help"] [] { help := true } ("p")).2.2.1
      (by decide) rfl rfl,
   (c8_help_amended size_type.EQUAL ["p"] [] {} ("p")).2.2.2⟩

/-- C9 (counterexample): an entry named `.` whose `d_type` is not `DT_DIR`
(e.g. `DT_UNKNOWN`) is not skipped — the skip test sits inside the
`d_type == DT_DIR` branch — so it is evaluated by the matcher and, here,
dispatched. -/
theorem c9_dot_skip_counterexample :
    walk_listing {} {} ("r")
        (fs_listing.cons ⟨7, 0, "."⟩ (fs_node.mk none (some ⟨0, 1⟩) true) fs_listing.nil) =
      [event.out ("r/.")] := by
  simp only [walk_listing, walk_entry]
  decide

/-- C9 (amended): an entry classified as a directory is skipped when named
`.` or `..` and otherwise recursed into via `path ++ "/" ++ name`; the skip
applies only to directory-classified entries. -/
theorem c9_dot_skip_amended (cfg : configuration) (o : sys_oracle) (path : String)
    (e : dirent) (child : fs_node) (rest : fs_listing) (hd : e.d_type = DT_DIR) :
    ((e.d_name = "." ∨ e.d_name = "..") →
      walk_listing cfg o path (fs_listing.cons e child rest) = walk_listing cfg o path rest) ∧
    (e.d_name ≠ "." → e.d_name ≠ ".." →
      walk_listing cfg o path (fs_listing.cons e child rest) =
        recursive_walk cfg o (path ++ "/" ++ e.d_name) child ++ walk_listing cfg o path rest) := by
  constructor
  · intro hn
    rcases hn with hn | hn <;> simp [walk_listing, walk_entry, hd, hn]
  · intro h1 h2
    simp [walk_listing, walk_entry, hd, h1, h2]

theorem c9_dot_skip_amended_witness :
    walk_listing {} {} ("r")
        (fs_listing.cons ⟨1, 4, "."⟩ (fs_node.mk none none true) fs_listing.nil) =
      walk_listing {} {} ("r") fs_listing.nil ∧
    walk_listing {} {} ("r")
        (fs_listing.cons ⟨1, 4, "sub"⟩ (fs_node.mk none none true) fs_listing.nil) =
      recursive_walk {} {} ("r" ++ "/" ++ "sub") (fs_node.mk none none true) ++
        walk_listing {} {} ("r") fs_listing.nil :=
  ⟨(c9_dot_skip_amended {} {} ("r") ⟨1, 4, "."⟩ (fs_node.mk none none true)
      fs_listing.nil rfl).1 (Or.inl rfl),
   (c9_dot_skip_amended {} {} ("r") ⟨1, 4, "sub"⟩ (fs_node.mk none none true)
      fs_listing.nil rfl).2 (by decide) (by decide)⟩

/-- C10: `optional.get` never fires its assertion inside
`configuration.matches` — every call site is guarded by an `empty` check, so
the matcher always yields an actual boolean verdict, for every
configuration, entry, and `stat` outcome. -/
theorem c10_optional_get_guarded (cfg : configuration) (file : dirent)
    (st : Option file_stat) :
    (configuration.matches cfg file st).isSome = true := by
  rcases cfg with ⟨help, ⟨inode⟩, name, ⟨size⟩, ⟨nlinks⟩, exe⟩
  rcases inode with _ | i <;> rcases name with _ | nm <;> rcases st with _ | s <;>
    rcases size with _ | ⟨v, ty⟩ <;> rcases nlinks with _ | n <;>
    (try cases ty) <;>
    simp [configuration.matches, optional.empty, optional.get] <;>
    repeat' (split <;> try simp)

end OsFind
